import Mathlib

/-!
# Verification of the JiraHelper CLI (`main.py`)

A shallow embedding of the single-file Python CLI that authenticates to a
Jira instance, resolves a board or project to a JQL base query, filters
issues, and applies bulk mutations (label addition, status transitions,
severity-based due dates).

Remote calls are modelled as an explicit trace of `Event`s; the remote
service is an oracle (`Service`) supplying the pages, projects, board
filters and per-issue transitions the script would read. Unbounded `while`
loops (`get_board_id_by_name`, `get_all_issues`) take a fuel argument; a
result of `none` means the loop had not finished within the given fuel, and
every theorem below either holds for all fuel or assumes enough of it.
Python truthiness of optional string arguments (absent or empty means
false) is modelled by `truthy`; `datetime.strptime` / `strftime` on the two
formats the script uses are modelled by an explicit proleptic-Gregorian
calendar on `Date`.
-/

namespace JiraHelper

/-! ## Calendar dates (`datetime.strptime`, `timedelta`, `strftime`) -/

/-- A calendar date, as `datetime.date` restricted to what the script uses. -/
structure Date where
  year : Nat
  month : Nat
  day : Nat
deriving DecidableEq

/-- Gregorian leap-year rule. -/
def isLeap (y : Nat) : Bool :=
  (y % 4 == 0 && y % 100 != 0) || y % 400 == 0

/-- Number of days of month `m` in year `y`. -/
def daysInMonth (y m : Nat) : Nat :=
  if m == 2 then (if isLeap y then 29 else 28)
  else if m == 4 || m == 6 || m == 9 || m == 11 then 30
  else 31

/-- The calendar successor of a date (`timedelta(days=1)`). -/
def nextDay (d : Date) : Date :=
  if d.day < daysInMonth d.year d.month then ⟨d.year, d.month, d.day + 1⟩
  else if d.month < 12 then ⟨d.year, d.month + 1, 1⟩
  else ⟨d.year + 1, 1, 1⟩

/-- The calendar successor, or `none` past `datetime.max` (9999-12-31):
`date_obj + timedelta(days=1)` raises `OverflowError` there. -/
def nextDayChecked (d : Date) : Option Date :=
  if d.year = 9999 ∧ d.month = 12 ∧ d.day = 31 then none else some (nextDay d)

/-- Adding `n` days (`timedelta(days=n)`), or `none` on the same
`OverflowError` past 9999-12-31. -/
def addDaysChecked : Date → Nat → Option Date
  | d, 0 => some d
  | d, n + 1 =>
    match nextDayChecked d with
    | none => none
    | some d2 => addDaysChecked d2 n

/-- Left-pad a numeral to two digits, as `strftime` does for `%d` / `%m`. -/
def pad2 (n : Nat) : String :=
  if n < 10 then "0" ++ toString n else toString n

/-- Left-pad a numeral to four digits for `%Y`, per the documented format
table. (For years below 1000 the padding of platform `strftime`s varies;
the script's dates reach such years only through zero-padded four-digit
input years.) -/
def pad4 (n : Nat) : String :=
  if n < 10 then "000" ++ toString n
  else if n < 100 then "00" ++ toString n
  else if n < 1000 then "0" ++ toString n
  else toString n

/-- `strftime("%Y-%m-%d")`. -/
def fmtYMD (d : Date) : String :=
  pad4 d.year ++ "-" ++ pad2 d.month ++ "-" ++ pad2 d.day

/-- `strftime("%d-%m-%Y")`. -/
def fmtDMY (d : Date) : String :=
  pad2 d.day ++ "-" ++ pad2 d.month ++ "-" ++ pad4 d.year

/-! ## Python string primitives

The Python string methods the script calls (`split`, `strip`, `lower`,
slicing) are modelled by structurally recursive functions over the
character list of a string, with Python's semantics. -/

/-- Python `s.split(sep)` for a one-character separator, over characters:
`""` splits to `[""]`, and empty fields are kept. -/
def splitOnChar (sep : Char) : List Char → List (List Char)
  | [] => [[]]
  | c :: cs =>
    if c == sep then [] :: splitOnChar sep cs
    else
      match splitOnChar sep cs with
      | [] => [[c]]
      | g :: gs => (c :: g) :: gs

/-- Python `s.split(sep)` on strings. -/
def pySplit (s : String) (sep : Char) : List String :=
  (splitOnChar sep s.data).map String.mk

/-- Python `s.strip()`: drop leading and trailing whitespace. -/
def pyStrip (s : String) : String :=
  ⟨((s.data.dropWhile Char.isWhitespace).reverse.dropWhile
      Char.isWhitespace).reverse⟩

/-- Python `s.lower()` (the script only compares ASCII names). -/
def pyLower (s : String) : String := ⟨s.data.map Char.toLower⟩

/-- Python `s[:n]`. -/
def pyTake (s : String) (n : Nat) : String := ⟨s.data.take n⟩

/-- The numeral denoted by a digit run. -/
def digitsVal (cs : List Char) : Nat :=
  cs.foldl (fun n c => n * 10 + (c.toNat - 48)) 0

/-- A `strptime` `%d` field, matching CPython's alternatives
`3[01]|[12][0-9]|0[1-9]|[1-9]| [1-9]`: one digit 1–9, a space followed by
a digit 1–9, or two digits with value 1–31. -/
def parseDayF : List Char → Option Nat
  | [c] => if '1' ≤ c ∧ c ≤ '9' then some (c.toNat - 48) else none
  | [' ', c] => if '1' ≤ c ∧ c ≤ '9' then some (c.toNat - 48) else none
  | [c1, c2] =>
    if c1.isDigit = true ∧ c2.isDigit = true then
      let v := (c1.toNat - 48) * 10 + (c2.toNat - 48)
      if 1 ≤ v ∧ v ≤ 31 then some v else none
    else none
  | _ => none

/-- A `strptime` `%m` field, matching CPython's alternatives
`1[0-2]|0[1-9]|[1-9]`: one digit 1–9 or two digits with value 1–12. -/
def parseMonthF : List Char → Option Nat
  | [c] => if '1' ≤ c ∧ c ≤ '9' then some (c.toNat - 48) else none
  | [c1, c2] =>
    if c1.isDigit = true ∧ c2.isDigit = true then
      let v := (c1.toNat - 48) * 10 + (c2.toNat - 48)
      if 1 ≤ v ∧ v ≤ 12 then some v else none
    else none
  | _ => none

/-- A `strptime` `%Y` field: exactly four decimal digits. -/
def parseYearF (cs : List Char) : Option Nat :=
  if cs.length = 4 ∧ cs.all Char.isDigit = true then some (digitsVal cs)
  else none

/-- Calendar validity as the `datetime` constructor enforces it
(year 1–9999, day within the month). -/
def validDate (y m d : Nat) : Bool :=
  1 ≤ y && y ≤ 9999 && 1 ≤ m && m ≤ 12 && 1 ≤ d && d ≤ daysInMonth y m

/-- `datetime.strptime(s, "%d-%m-%Y")`: `none` models the `ValueError`,
both from a field failing its pattern and from the constructor's
validation. -/
def parseDMY (s : String) : Option Date :=
  match splitOnChar '-' s.data with
  | [ds, ms, ys] =>
    match parseDayF ds, parseMonthF ms, parseYearF ys with
    | some d, some m, some y => if validDate y m d then some ⟨y, m, d⟩ else none
    | _, _, _ => none
  | _ => none

/-- `datetime.strptime(s, "%Y-%m-%d")`: `none` models the `ValueError`. -/
def parseYMD (s : String) : Option Date :=
  match splitOnChar '-' s.data with
  | [ys, ms, ds] =>
    match parseYearF ys, parseMonthF ms, parseDayF ds with
    | some y, some m, some d => if validDate y m d then some ⟨y, m, d⟩ else none
    | _, _, _ => none
  | _ => none

/-! ## Optional command-line strings and Python truthiness -/

/-- The string behind an optional argument (absent reads as `""`). -/
def getVal (o : Option String) : String := o.getD ""

/-- Python truthiness of an optional string: `None` and `""` are falsy. -/
def truthy (o : Option String) : Bool := !(getVal o).data.isEmpty

/-! ## `build_jql` (main.py lines 97–117) -/

/-- `build_jql`: appends one JQL clause per truthy filter, in source order;
`.error` models the uncaught `ValueError` from `strptime` on a malformed
`created_on`. -/
def build_jql (base_jql : String) (status assignee reporter issue_type
    priority labels created_on : Option String) : Except String String :=
  let filters : List String := []
  let filters := if truthy status then
      filters ++ ["status = \"" ++ getVal status ++ "\""] else filters
  let filters := if truthy assignee then
      filters ++ ["assignee = \"" ++ getVal assignee ++ "\""] else filters
  let filters := if truthy reporter then
      filters ++ ["reporter = \"" ++ getVal reporter ++ "\""] else filters
  let filters := if truthy issue_type then
      filters ++ ["issuetype = \"" ++ getVal issue_type ++ "\""] else filters
  let filters := if truthy priority then
      filters ++ ["priority = \"" ++ getVal priority ++ "\""] else filters
  let filters := if truthy labels then
      let label_list := String.intercalate ", "
        ((pySplit (getVal labels) ',').map (fun l => "\"" ++ pyStrip l ++ "\""))
      filters ++ ["labels IN (" ++ label_list ++ ")"]
    else filters
  if truthy created_on then
    match parseDMY (getVal created_on) with
    | none => .error ("time data \x27" ++ getVal created_on ++
        "\x27 does not match format \x27%d-%m-%Y\x27")
    | some date_obj =>
      match nextDayChecked date_obj with
      | none => .error "OverflowError: date value out of range"
      | some next_day_obj =>
        let date_str := fmtYMD date_obj
        let next_day := fmtYMD next_day_obj
        let filters := filters ++
          ["created >= \"" ++ date_str ++ "\" AND created < \"" ++ next_day ++ "\""]
        .ok (base_jql ++ " AND " ++ String.intercalate " AND " filters)
  else
    .ok (if filters.isEmpty then base_jql
         else base_jql ++ " AND " ++ String.intercalate " AND " filters)

/-! ## The remote service, its data, and the event trace -/

/-- A Jira board (`jira.boards()` entries). -/
structure Board where
  id : Nat
  name : String
deriving DecidableEq

/-- A Jira project (`jira.projects()` entries). -/
structure Project where
  key : String
  name : String
deriving DecidableEq

/-- A workflow transition as returned by `jira.transitions(key)`. -/
structure Transition where
  id : String
  name : String
deriving DecidableEq

/-- An issue, flattening the `issue.fields` the script reads. `priority` is
the priority name, `none` when the field is absent; `created` is the raw
creation timestamp string. -/
structure Issue where
  key : String
  labels : List String
  status : String
  priority : Option String
  created : String
deriving DecidableEq

/-- One observable step of the script: a remote call or a console line. -/
inductive Event where
  | getBoards (startAt : Nat)
  | getProjects
  | getBoardConfig (boardId : Nat)
  | searchIssues (jql : String) (startAt : Nat)
  | getTransitions (key : String)
  | updateLabels (key : String) (labels : List String)
  | updateDuedate (key : String) (duedate : String)
  | transitionIssue (key : String) (transitionId : String)
  | msg (text : String)
deriving DecidableEq

/-- Remote calls that mutate server state (issue field updates and
transition executions). -/
def isMutating : Event → Bool
  | .updateLabels _ _ => true
  | .updateDuedate _ _ => true
  | .transitionIssue _ _ => true
  | _ => false

/-- Remote issue-search (fetch) calls. -/
def isSearch : Event → Bool
  | .searchIssues _ _ => true
  | _ => false

/-- Console lines that report a would-be mutation: in the source these are
exactly the lines beginning `"Would "` (`Would update …`, `Would move …`). -/
def isWouldReport : Event → Bool
  | .msg t => "Would ".data.isPrefixOf t.data
  | _ => false

/-- The remote service as an oracle for every read the script performs. -/
structure Service where
  boardsPage : Nat → List Board
  projects : List Project
  boardJql : Nat → String
  searchPage : String → Nat → List Issue
  transitions : String → List Transition

/-! ## Board and project resolution (main.py lines 72–89) -/

/-- The `while True` loop of `get_board_id_by_name`: pages through
`jira.boards(startAt=start_at)` until an empty page, returning the id of
the first board whose name matches exactly. `none` in the outer `Option`
means the fuel ran out before the loop finished. -/
def board_loop (svc : Nat → List Board) (name : String) :
    Nat → Nat → List Event × Option (Option Nat)
  | 0, _ => ([], none)
  | Nat.succ fuel, start_at =>
    let boards := svc start_at
    if boards.isEmpty then ([Event.getBoards start_at], some none)
    else
      match boards.find? (fun b => b.name == name) with
      | some b => ([Event.getBoards start_at], some (some b.id))
      | none =>
        let r := board_loop svc name fuel (start_at + boards.length)
        (Event.getBoards start_at :: r.1, r.2)

/-- `get_board_id_by_name`. -/
def get_board_id_by_name (svc : Nat → List Board) (name : String) (fuel : Nat) :
    List Event × Option (Option Nat) :=
  board_loop svc name fuel 0

/-- `get_project_key_by_name`: case-insensitive exact name match over the
full project list. -/
def get_project_key_by_name (projects : List Project) (name : String) : Option String :=
  (projects.find? (fun p => pyLower p.name == pyLower name)).map Project.key

/-! ## Issue pagination (`get_all_issues`, main.py lines 119–133) -/

/-- The `while True` loop of `get_all_issues`: requests the page at
`start_at`, stops on an empty page or a page shorter than 100, otherwise
appends it and continues at `start_at + 100`. Returns the list of requested
`startAt` offsets in request order, and the accumulated issues (`none` when
the fuel ran out before the loop finished). -/
def fetch_loop {α : Type} (page : Nat → List α) :
    Nat → Nat → List Nat × Option (List α)
  | 0, _ => ([], none)
  | Nat.succ fuel, start_at =>
    let issues := page start_at
    if issues.isEmpty then ([start_at], some [])
    else if issues.length < 100 then ([start_at], some issues)
    else
      let r := fetch_loop page fuel (start_at + 100)
      (start_at :: r.1, r.2.map (fun rest => issues ++ rest))

/-- `get_all_issues`, starting at offset 0. -/
def get_all_issues {α : Type} (page : Nat → List α) (fuel : Nat) :
    List Nat × Option (List α) :=
  fetch_loop page fuel 0

/-- A paged view of a fixed sequence of pages: the request at offset `s`
is answered by page number `s / 100`, and pages beyond the sequence are
empty. -/
def svcOfPages {α : Type} (pages : List (List α)) : Nat → List α :=
  fun s => pages.getD (s / 100) []

/-- Index of the first page that is empty or shorter than 100 in a page
sequence; one past the end when every listed page is full (the implicit
next page is empty). -/
def firstShort {α : Type} : List (List α) → Nat
  | [] => 0
  | p :: rest => if p.length < 100 then 0 else firstShort rest + 1

/-! ## Label mutator (`add_label_to_issues`, main.py lines 135–146) -/

/-- One iteration of the `add_label_to_issues` loop. The returned `Issue`
is the remote state of the issue after the iteration: unchanged unless a
real (non-dry-run) update was pushed. -/
def add_label_step (dry_run : Bool) (issue : Issue) (label : String) :
    List Event × Issue :=
  if issue.labels.contains label then
    ([Event.msg (issue.key ++ " already has label \x27" ++ label ++ "\x27")], issue)
  else
    let head := Event.msg ((if dry_run then "Would update " else "Updating ") ++
      issue.key ++ " with label \x27" ++ label ++ "\x27")
    if dry_run then ([head], issue)
    else
      let updated := issue.labels ++ [label]
      ([head, Event.updateLabels issue.key updated,
        Event.msg ("Updated " ++ issue.key ++ " with label \x27" ++ label ++ "\x27")],
       { issue with labels := updated })

/-- `add_label_to_issues` over the fetched issue list; also returns the
remote state of the issues after the run. -/
def add_label_to_issues (dry_run : Bool) (issues : List Issue) (label : String) :
    List Event × List Issue :=
  match issues with
  | [] => ([], [])
  | i :: rest =>
    let r := add_label_step dry_run i label
    let rs := add_label_to_issues dry_run rest label
    (r.1 ++ rs.1, r.2 :: rs.2)

/-! ## Status mutator (`move_issues_to_status`, main.py lines 148–167) -/

/-- One iteration of the `move_issues_to_status` loop. -/
def move_issue_step (dry_run : Bool) (trans : String → List Transition)
    (issue : Issue) (target_status : String) : List Event :=
  if pyLower issue.status == pyLower target_status then
    [Event.msg (issue.key ++ " already in status \x27" ++ target_status ++ "\x27")]
  else
    let ts := trans issue.key
    match ts.find? (fun t => pyLower t.name == pyLower target_status) with
    | none =>
      [Event.getTransitions issue.key,
       Event.msg ("No valid transition found for " ++ issue.key ++ " → \x27" ++
         target_status ++ "\x27")]
    | some t =>
      [Event.getTransitions issue.key,
       Event.msg ((if dry_run then "Would move " else "Moving ") ++ issue.key ++
         " to \x27" ++ target_status ++ "\x27")] ++
      (if dry_run then []
       else [Event.transitionIssue issue.key t.id,
             Event.msg ("Moved " ++ issue.key ++ " to \x27" ++ target_status ++ "\x27")])

/-- `move_issues_to_status` over the fetched issue list. -/
def move_issues_to_status (dry_run : Bool) (trans : String → List Transition)
    (issues : List Issue) (target_status : String) : List Event :=
  match issues with
  | [] => []
  | i :: rest =>
    move_issue_step dry_run trans i target_status ++
    move_issues_to_status dry_run trans rest target_status

/-! ## Due-date mutator (`set_due_dates_based_on_severity`, main.py 169–195) -/

/-- The severity-to-offset table (its `.get(severity, None)`). -/
def daysFor (severity : String) : Option Nat :=
  if severity == "critical" then some 7
  else if severity == "high" then some 15
  else if severity == "medium" then some 30
  else if severity == "low" then some 90
  else none

/-- One iteration of the `set_due_dates_based_on_severity` loop. `none`
models an uncaught exception: the `ValueError` when `created[:10]` fails
to parse, or the `OverflowError` when the due date would pass 9999-12-31. -/
def set_due_step (dry_run : Bool) (issue : Issue) : Option (List Event) :=
  match issue.priority with
  | none => some []
  | some pname =>
    let severity := pyLower pname
    if severity == "informational" then some []
    else
      match daysFor severity with
      | none => some []
      | some days_to_add =>
        match parseYMD (pyTake issue.created 10) with
        | none => none
        | some created_date =>
          match addDaysChecked created_date days_to_add with
          | none => none
          | some due_date =>
          some ([Event.msg ("Setting due date for " ++ issue.key ++ " to " ++
                   fmtDMY due_date)] ++
                (if dry_run then []
                 else [Event.updateDuedate issue.key (fmtYMD due_date),
                       Event.msg ("Due date set for " ++ issue.key)]))

/-- `set_due_dates_based_on_severity` over the fetched issue list; the
`Bool` is `false` when the run aborted on a `ValueError`. -/
def set_due_dates_based_on_severity (dry_run : Bool) : List Issue → List Event × Bool
  | [] => ([], true)
  | i :: rest =>
    match set_due_step dry_run i with
    | none => ([], false)
    | some evs =>
      let r := set_due_dates_based_on_severity dry_run rest
      (evs ++ r.1, r.2)

/-! ## Credentials and startup (main.py lines 16–34 and 58–63) -/

/-- The state of `JiraCredentials.json` as `load_credentials` can observe
it: absent, unreadable as JSON (`json.load` raises), or a JSON object whose
three looked-up fields are each present or not. -/
inductive CredFile where
  | missing
  | unreadableJson
  | content (email api_token jira_url : Option String)
deriving DecidableEq

/-- `load_credentials`: `.error` carries the `exit` code. A field that is
absent or empty is falsy, raising the caught `ValueError`. -/
def load_credentials : CredFile → Except Nat (String × String × String)
  | .missing => .error 1
  | .unreadableJson => .error 1
  | .content email token url =>
    match email, token, url with
    | some e, some t, some u =>
      if e.isEmpty || t.isEmpty || u.isEmpty then .error 1 else .ok (e, t, u)
    | _, _, _ => .error 1

/-- Startup-phase observable steps: the local file read and the
authenticated-session construction (the first network activity). -/
inductive StartEvent where
  | readCredsFile
  | netAuthenticate
deriving DecidableEq

/-- The module-level startup sequence: `load_credentials()` (line 34), then
the `JIRA(...)` session construction (line 59). `authOk = false` models the
server rejecting the credentials. -/
def startup (file : CredFile) (authOk : Bool) :
    List StartEvent × Except Nat (String × String × String) :=
  match load_credentials file with
  | .error code => ([.readCredsFile], .error code)
  | .ok creds =>
    if authOk then ([.readCredsFile, .netAuthenticate], .ok creds)
    else ([.readCredsFile, .netAuthenticate], .error 1)

/-! ## Command line and the execution block (main.py lines 36–56, 197–257) -/

/-- The parsed command line (argparse gives `none` for an unset option and
`false` for an unset flag). -/
structure Args where
  board_name : Option String
  project : Option String
  dry_run : Bool
  add_label : Option String
  move_to : Option String
  status : Option String
  assignee : Option String
  reporter : Option String
  issue_type : Option String
  priority : Option String
  labels : Option String
  created_on : Option String
  set_due_date : Bool
deriving DecidableEq

/-- Lines 236–257: build the final JQL, fetch all issues, and run the
requested mutators. `pre` is the trace accumulated so far; the exit status
is `some code`, or `none` when pagination fuel ran out. -/
def run_pipeline (a : Args) (svc : Service) (fuel : Nat) (pre : List Event)
    (base_jql : String) : List Event × Option Nat :=
  match build_jql base_jql a.status a.assignee a.reporter a.issue_type
      a.priority a.labels a.created_on with
  | .error _ => (pre, some 1)
  | .ok final_jql =>
    let pre := pre ++ [Event.msg ("JQL: " ++ final_jql)]
    let fr := get_all_issues (svc.searchPage final_jql) fuel
    let pre := pre ++ fr.1.map (fun s => Event.searchIssues final_jql s)
    match fr.2 with
    | none => (pre, none)
    | some issues =>
      let pre := pre ++
        [Event.msg ("Total issues matching filters: " ++ toString issues.length)]
      if issues.isEmpty then
        (pre ++ [Event.msg "No issues found matching the filters. Script completed."],
         some 0)
      else
        let evs1 := if truthy a.add_label then
            let lbl := getVal a.add_label
            Event.msg ("Adding label \x27" ++ lbl ++ "\x27") ::
              (add_label_to_issues a.dry_run issues lbl).1
          else []
        let evs2 := if truthy a.move_to then
            let tgt := getVal a.move_to
            Event.msg ("Moving issues to status \x27" ++ tgt ++ "\x27") ::
              move_issues_to_status a.dry_run svc.transitions issues tgt
          else []
        if a.set_due_date then
          let r := set_due_dates_based_on_severity a.dry_run issues
          let evs3 := Event.msg "Setting due dates based on severity..." :: r.1
          if r.2 then
            (pre ++ evs1 ++ evs2 ++ evs3 ++ [Event.msg "Script completed."], some 0)
          else (pre ++ evs1 ++ evs2 ++ evs3, some 1)
        else (pre ++ evs1 ++ evs2 ++ [Event.msg "Script completed."], some 0)

/-- The execution block (lines 198–257). In dry-run mode only the
existence check runs and the process exits (line 215); otherwise a board
or project is required and resolved, and the pipeline runs. -/
def main (a : Args) (svc : Service) (fuel : Nat) : List Event × Option Nat :=
  if a.dry_run then
    if truthy a.board_name then
      let name := getVal a.board_name
      let r := board_loop svc.boardsPage name fuel 0
      let evs := Event.msg ("Looking for board: " ++ name) :: r.1
      match r.2 with
      | none => (evs, none)
      | some (some _) =>
        (evs ++ [Event.msg ("Board \x27" ++ name ++ "\x27 exists.")], some 0)
      | some none =>
        (evs ++ [Event.msg ("Board \x27" ++ name ++ "\x27 not found.")], some 1)
    else if truthy a.project then
      let name := getVal a.project
      let evs := [Event.msg ("Looking for project: " ++ name), Event.getProjects]
      match get_project_key_by_name svc.projects name with
      | some _ =>
        (evs ++ [Event.msg ("Project \x27" ++ name ++ "\x27 exists.")], some 0)
      | none =>
        (evs ++ [Event.msg ("Project \x27" ++ name ++ "\x27 not found.")], some 1)
    else ([], some 0)
  else if !truthy a.board_name && !truthy a.project then
    ([Event.msg "Either --board-name or --project must be provided."], some 1)
  else if truthy a.board_name then
    let name := getVal a.board_name
    let r := board_loop svc.boardsPage name fuel 0
    let evs := Event.msg ("Looking for board: " ++ name) :: r.1
    match r.2 with
    | none => (evs, none)
    | some none =>
      (evs ++ [Event.msg ("Board \x27" ++ name ++ "\x27 not found.")], some 1)
    | some (some board_id) =>
      run_pipeline a svc fuel (evs ++ [Event.getBoardConfig board_id])
        (svc.boardJql board_id)
  else
    let name := getVal a.project
    let evs := [Event.msg ("Looking for project: " ++ name), Event.getProjects]
    match get_project_key_by_name svc.projects name with
    | none =>
      (evs ++ [Event.msg ("Project \x27" ++ name ++ "\x27 not found.")], some 1)
    | some project_key =>
      run_pipeline a svc fuel evs ("project = " ++ project_key ++ " ORDER BY Rank ASC")

/-! ## Claim-side clause renderings

These restate, in the words of the specification, the clause list the
query builder is claimed to emit: one clause per non-empty filter, in the
fixed order, scalar values double-quoted, labels split on commas and
trimmed, and the created-on filter as a half-open one-day interval. They
are compared against `build_jql` in the theorems below. -/

/-- Double-quoting of a scalar JQL value. -/
def dq (v : String) : String := "\"" ++ v ++ "\""

/-- The value of an optional filter when it is non-empty. -/
def nonEmptyVal (o : Option String) : Option String :=
  o.filter (fun v => !v.data.isEmpty)

/-- The one clause a non-empty scalar filter contributes. -/
def specScalarClause (field : String) (o : Option String) : List String :=
  (nonEmptyVal o).toList.map (fun v => field ++ " = " ++ dq v)

/-- The one clause a non-empty labels filter contributes: the
comma-separated list split, each label trimmed and double-quoted. -/
def specLabelsClause (o : Option String) : List String :=
  (nonEmptyVal o).toList.map (fun v =>
    "labels IN (" ++
      String.intercalate ", " ((pySplit v ',').map (fun l => dq (pyStrip l))) ++ ")")

/-- The one clause a non-empty, well-formed created-on filter contributes:
the half-open interval covering exactly that calendar day. -/
def specCreatedClause (o : Option String) : List String :=
  match nonEmptyVal o with
  | none => []
  | some v =>
    match parseDMY v with
    | some d =>
      match nextDayChecked d with
      | some nd =>
        ["created >= \"" ++ fmtYMD d ++ "\" AND created < \"" ++
          fmtYMD nd ++ "\""]
      | none => []
    | none => []

/-- The full clause list in the fixed order status, assignee, reporter,
issue-type, priority, labels, created-on. -/
def specClauses (status assignee reporter issue_type priority labels
    created_on : Option String) : List String :=
  specScalarClause "status" status ++ specScalarClause "assignee" assignee ++
  specScalarClause "reporter" reporter ++ specScalarClause "issuetype" issue_type ++
  specScalarClause "priority" priority ++ specLabelsClause labels ++
  specCreatedClause created_on

/-! ## Concrete fixtures used by witnesses -/

/-- A command line with nothing set (argparse defaults). -/
def argsNone : Args :=
  ⟨none, none, false, none, none, none, none, none, none, none, none, none, false⟩

/-- A sample issue: critical priority, no labels, created 2024-01-01. -/
def tIssue : Issue :=
  ⟨"AB-1", [], "Open", some "Critical", "2024-01-01T09:00:00.000+0000"⟩

/-- A sample service: one board `B` (id 42), one project `Proj` (key
`ABC`), one issue on every search, one `Done` transition everywhere. -/
def tSvc : Service where
  boardsPage := fun s => if s == 0 then [⟨42, "B"⟩] else []
  projects := [⟨"ABC", "Proj"⟩]
  boardJql := fun _ => "project = ABC ORDER BY Rank ASC"
  searchPage := fun _ s => if s == 0 then [tIssue] else []
  transitions := fun _ => [⟨"31", "Done"⟩]

/-- An issue whose low-priority offset of 90 days passes the calendar
ceiling: created 9999-12-30. -/
def tIssueLow : Issue :=
  ⟨"K", [], "Open", some "low", "9999-12-30T00:00:00.000+0000"⟩

/-- A dry-run command line requesting board `B` and a label mutation. -/
def tArgsDry : Args := { argsNone with dry_run := true, board_name := some "B", add_label := some "L" }

/-! # Theorems -/

/-! ## Helper lemmas -/

@[simp] theorem getVal_none : getVal none = "" := rfl

@[simp] theorem getVal_some (v : String) : getVal (some v) = v := rfl

@[simp] theorem truthy_none : truthy none = false := rfl

@[simp] theorem truthy_some (v : String) : truthy (some v) = !v.data.isEmpty := rfl

theorem scalar_clause_string (f v : String) :
    f ++ " = " ++ dq v = f ++ " = \"" ++ v ++ "\"" := by
  rw [dq, ← String.append_assoc, ← String.append_assoc,
    String.append_assoc f " = " "\""]
  rfl

theorem specScalarClause_eq (f : String) (o : Option String) :
    specScalarClause f o =
      if truthy o = true then [f ++ " = \"" ++ getVal o ++ "\""] else [] := by
  rcases o with _ | v
  · rfl
  · by_cases h : v.data.isEmpty <;>
      simp [specScalarClause, nonEmptyVal, Option.filter, h, scalar_clause_string]

theorem specLabelsClause_eq (o : Option String) :
    specLabelsClause o =
      if truthy o = true then
        ["labels IN (" ++
          String.intercalate ", "
            ((pySplit (getVal o) ',').map (fun l => "\"" ++ pyStrip l ++ "\"")) ++ ")"]
      else [] := by
  rcases o with _ | v
  · rfl
  · by_cases h : v.data.isEmpty <;>
      simp [specLabelsClause, nonEmptyVal, Option.filter, dq, h]

theorem specCreatedClause_none (o : Option String) (h : truthy o = false) :
    specCreatedClause o = [] := by
  rcases o with _ | v
  · rfl
  · simp only [truthy_some, Bool.not_eq_true'] at h
    simp [specCreatedClause, nonEmptyVal, Option.filter, h]

theorem specCreatedClause_parsed (o : Option String) (d nd : Date)
    (ht : truthy o = true) (hd : parseDMY (getVal o) = some d)
    (hnd : nextDayChecked d = some nd) :
    specCreatedClause o =
      ["created >= \"" ++ fmtYMD d ++ "\" AND created < \"" ++
        fmtYMD nd ++ "\""] := by
  rcases o with _ | v
  · simp at ht
  · simp only [truthy_some, Bool.not_eq_false'] at ht
    simp only [getVal_some] at hd
    simp [specCreatedClause, nonEmptyVal, Option.filter, ht, hd, hnd]

theorem append_if_assoc (b : Bool) (X Y : List String) :
    (if b = true then X ++ Y else X) = X ++ (if b = true then Y else []) := by
  cases b <;> simp

/-! ## Claim C2 -/

/-- Claim C2: for every base query and every combination of the optional
filters, `build_jql` emits exactly one clause per non-empty filter, in the
fixed order status, assignee, reporter, issue-type, priority, labels,
created-on, each scalar value double-quoted and each label trimmed, joins
the clauses with `" AND "`, and prepends a leading `" AND "` to the base
query exactly when at least one filter is present; with no filters the
base query is returned unmodified. (Stated under the hypothesis that a
non-empty created-on value parses and its successor day is representable;
the failing created-on paths, which abort the run, are claim C3's case.) -/
theorem claim_C2_build_jql_clauses (base : String)
    (st asg rep ity pri lab cre : Option String)
    (hc : truthy cre = true → ∃ d nd, parseDMY (getVal cre) = some d ∧
      nextDayChecked d = some nd) :
    build_jql base st asg rep ity pri lab cre =
      .ok (if (specClauses st asg rep ity pri lab cre).isEmpty then base
           else base ++ " AND " ++
             String.intercalate " AND " (specClauses st asg rep ity pri lab cre)) := by
  by_cases hco : truthy cre = true
  · obtain ⟨d, nd, hd, hnd⟩ := hc hco
    simp only [specClauses, specScalarClause_eq, specLabelsClause_eq,
      specCreatedClause_parsed cre d nd hco hd hnd, build_jql, hco, if_true,
      hd, hnd]
    simp only [List.nil_append, append_if_assoc]
    simp [List.append_assoc]
  · have h0 : truthy cre = false := by simpa using hco
    simp only [specClauses, specScalarClause_eq, specLabelsClause_eq,
      specCreatedClause_none cre h0, build_jql, h0]
    simp only [List.nil_append, append_if_assoc]
    simp [List.append_assoc]

/-- Claim C2 witness: all hypotheses hold at a concrete input and the
clause shape is as claimed. -/
theorem claim_C2_build_jql_clauses_witness :
    (∃ d nd, parseDMY (getVal (some "15-03-2024")) = some d ∧
      nextDayChecked d = some nd) ∧
    build_jql "project = ABC ORDER BY Rank ASC" (some "In Progress") none none
        none none (some " a ,b") (some "15-03-2024") =
      .ok ("project = ABC ORDER BY Rank ASC AND status = \"In Progress\"" ++
        " AND labels IN (\"a\", \"b\")" ++
        " AND created >= \"2024-03-15\" AND created < \"2024-03-16\"") := by
  refine ⟨⟨⟨2024, 3, 15⟩, ⟨2024, 3, 16⟩, by decide, by decide⟩, ?_⟩
  rw [claim_C2_build_jql_clauses "project = ABC ORDER BY Rank ASC"
    (some "In Progress") none none none none (some " a ,b") (some "15-03-2024")
    (fun _ => ⟨⟨2024, 3, 15⟩, ⟨2024, 3, 16⟩, by decide, by decide⟩)]
  rfl

/-! ## Claim C3 -/

theorem intercalate_singleton (sep c : String) : String.intercalate sep [c] = c := by
  simp [String.intercalate, String.intercalate.go]

theorem truthy_of_parseDMY (s : String) (d : Date) (h : parseDMY s = some d) :
    truthy (some s) = true := by
  cases s with
  | mk data =>
    cases data with
    | nil =>
      rw [show parseDMY ⟨[]⟩ = none from rfl] at h
      exact Option.noConfusion h
    | cons c cs => rfl

/-- Claim C3 counterexample: `31-12-9999` parses in DD-MM-YYYY form, yet
`build_jql` emits no clause — `date_obj + timedelta(days=1)` passes the
calendar ceiling and the run aborts with the overflow error, refuting
"for every created-on input that parses, the clause is emitted". -/
theorem claim_C3_created_on_interval_counterexample :
    parseDMY "31-12-9999" = some ⟨9999, 12, 31⟩ ∧
    build_jql "B" none none none none none none (some "31-12-9999") =
      .error "OverflowError: date value out of range" := by
  exact ⟨by decide, by rfl⟩

/-- Claim C3, amended: every created-on value that parses in DD-MM-YYYY
form and whose successor day is representable (any parsed date except
31-12-9999) makes `build_jql` emit the single half-open one-day interval
clause; the input `15-03-2024` yields
`created >= "2024-03-15" AND created < "2024-03-16"`; the parsed maximal
date `31-12-9999` aborts the run with an overflow error; a value that does
not parse raises the modelled `ValueError`; either error makes the
execution block abort the run (exit 1). -/
theorem claim_C3_created_on_interval :
    (∀ s d nd base, parseDMY s = some d → nextDayChecked d = some nd →
      build_jql base none none none none none none (some s) =
        .ok (base ++ " AND created >= \"" ++ fmtYMD d ++ "\" AND created < \"" ++
          fmtYMD nd ++ "\"")) ∧
    build_jql "B" none none none none none none (some "15-03-2024") =
      .ok "B AND created >= \"2024-03-15\" AND created < \"2024-03-16\"" ∧
    (∀ s d base, parseDMY s = some d → nextDayChecked d = none →
      build_jql base none none none none none none (some s) =
        .error "OverflowError: date value out of range") ∧
    (∀ s base, truthy (some s) = true → parseDMY s = none →
      build_jql base none none none none none none (some s) =
        .error ("time data \x27" ++ s ++
          "\x27 does not match format \x27%d-%m-%Y\x27")) ∧
    (∀ a svc fuel pre base e,
      build_jql base a.status a.assignee a.reporter a.issue_type a.priority
        a.labels a.created_on = .error e →
      run_pipeline a svc fuel pre base = (pre, some 1)) := by
  refine ⟨?_, by rfl, ?_, ?_, ?_⟩
  · intro s d nd base h hnd
    have ht := truthy_of_parseDMY s d h
    simp only [build_jql, truthy_none, Bool.false_eq_true, if_false, getVal_some,
      ht, if_true, h, hnd, List.nil_append, intercalate_singleton]
    simp only [String.append_assoc]
    rw [← String.append_assoc " AND " "created >= \""]
    rfl
  · intro s d base h hnd
    have ht := truthy_of_parseDMY s d h
    simp only [build_jql, truthy_none, Bool.false_eq_true, if_false, getVal_some,
      ht, if_true, h, hnd]
  · intro s base ht h
    simp only [build_jql, truthy_none, Bool.false_eq_true, if_false, getVal_some,
      ht, if_true, h]
  · intro a svc fuel pre base e h
    simp only [run_pipeline, h]

/-- Claim C3 witness: the theorem applied at `15-03-2024` (which parses,
below the ceiling), at `31-12-9999` (which parses, at the ceiling), at
`2024-03-15` (which does not parse), and at a concrete aborted pipeline. -/
theorem claim_C3_created_on_interval_witness :
    parseDMY "15-03-2024" = some ⟨2024, 3, 15⟩ ∧
    nextDayChecked ⟨2024, 3, 15⟩ = some ⟨2024, 3, 16⟩ ∧
    build_jql "B" none none none none none none (some "15-03-2024") =
      .ok ("B" ++ " AND created >= \"" ++ fmtYMD ⟨2024, 3, 15⟩ ++
        "\" AND created < \"" ++ fmtYMD ⟨2024, 3, 16⟩ ++ "\"") ∧
    nextDayChecked ⟨9999, 12, 31⟩ = none ∧
    build_jql "X" none none none none none none (some "31-12-9999") =
      .error "OverflowError: date value out of range" ∧
    parseDMY "2024-03-15" = none ∧
    build_jql "B" none none none none none none (some "2024-03-15") =
      .error ("time data \x272024-03-15\x27 does not match format \x27%d-%m-%Y\x27") ∧
    run_pipeline { argsNone with created_on := some "2024-03-15" } tSvc 3
      [Event.getProjects] "B" = ([Event.getProjects], some 1) := by
  refine ⟨by decide, by decide,
    claim_C3_created_on_interval.1 "15-03-2024" ⟨2024, 3, 15⟩ ⟨2024, 3, 16⟩ "B"
      (by decide) (by decide),
    by decide,
    claim_C3_created_on_interval.2.2.1 "31-12-9999" ⟨9999, 12, 31⟩ "X"
      (by decide) (by decide),
    by decide, ?_, ?_⟩
  · have h := claim_C3_created_on_interval.2.2.2.1 "2024-03-15" "B" (by decide)
      (by decide)
    simpa using h
  · exact claim_C3_created_on_interval.2.2.2.2
      { argsNone with created_on := some "2024-03-15" } tSvc 3 [Event.getProjects]
      "B" _ (by rfl)

/-! ## Claim C4 -/

theorem fetch_loop_shift {α : Type} (page : Nat → List α) (k : Nat) :
    ∀ (fuel s : Nat),
      fetch_loop page fuel (s + k) =
        ((fetch_loop (fun t => page (t + k)) fuel s).1.map (fun t => t + k),
         (fetch_loop (fun t => page (t + k)) fuel s).2)
  | 0, _ => rfl
  | fuel + 1, s => by
    simp only [fetch_loop]
    by_cases h1 : (page (s + k)).isEmpty = true
    · simp [h1]
    · by_cases h2 : (page (s + k)).length < 100
      · simp [h1, h2]
      · have hrec := fetch_loop_shift page k fuel (s + 100)
        rw [Nat.add_right_comm s k 100, hrec]
        simp [h1, h2]

theorem svcOfPages_cons_shift {α : Type} (p : List α) (rest : List (List α)) :
    (fun t => svcOfPages (p :: rest) (t + 100)) = svcOfPages rest := by
  funext t
  simp [svcOfPages, Nat.add_div_right]

/-- Claim C4: over any paged view of a page sequence, `get_all_issues`
returns the concatenation, in order, of the pages up to and including the
first page that is empty or shorter than 100, and its requests are exactly
the offsets 0, 100, … up to that page — it never probes beyond the first
short page. -/
theorem claim_C4_get_all_issues_pagination {α : Type} (pages : List (List α))
    (fuel : Nat) (hf : pages.length + 1 ≤ fuel) :
    get_all_issues (svcOfPages pages) fuel =
      ((List.range (firstShort pages + 1)).map (fun i => i * 100),
       some ((pages.take (firstShort pages + 1)).flatten)) := by
  have hr1 : List.map (fun i : Nat => i * 100) (List.range 1) = [0] := by decide
  induction pages generalizing fuel with
  | nil =>
    obtain ⟨f, rfl⟩ : ∃ f, fuel = f + 1 := ⟨fuel - 1, by omega⟩
    simp [get_all_issues, fetch_loop, svcOfPages, firstShort, List.getD, hr1]
  | cons p rest ih =>
    obtain ⟨f, rfl⟩ : ∃ f, fuel = f + 1 := ⟨fuel - 1, by omega⟩
    have hp0 : svcOfPages (p :: rest) 0 = p := by simp [svcOfPages]
    simp only [get_all_issues, fetch_loop, hp0]
    by_cases h1 : p.isEmpty = true
    · have hp : p = [] := List.isEmpty_iff.mp h1
      subst hp
      simp [firstShort, hr1]
    · by_cases h2 : p.length < 100
      · have hfs : firstShort (p :: rest) = 0 := by simp [firstShort, h2]
        simp [h1, h2, hfs, hr1]
      · have hfs : firstShort (p :: rest) = firstShort rest + 1 := by
          simp [firstShort, h2]
        have hshift : fetch_loop (svcOfPages (p :: rest)) f 100 =
            ((fetch_loop (svcOfPages rest) f 0).1.map (fun t => t + 100),
             (fetch_loop (svcOfPages rest) f 0).2) := by
          have h := fetch_loop_shift (svcOfPages (p :: rest)) 100 f 0
          rw [svcOfPages_cons_shift] at h
          simpa using h
        have ihr := ih f (by simpa using Nat.lt_of_succ_le hf)
        simp only [get_all_issues] at ihr
        simp only [h1, h2, if_false, Bool.false_eq_true, if_neg]
        rw [show (0 : Nat) + 100 = 100 from rfl, hshift, ihr]
        have hl : List.map (fun i : Nat => i * 100)
              (List.range (firstShort rest + 1 + 1)) =
            0 :: List.map (fun t => t + 100)
              (List.map (fun i => i * 100) (List.range (firstShort rest + 1))) := by
          rw [List.range_succ_eq_map]
          simp only [List.map_cons, List.map_map, Nat.zero_mul]
          congr 1
          apply List.map_congr_left
          intro i _
          simp [Function.comp, Nat.succ_mul]
        rw [hfs, hl]
        simp [List.take_succ_cons]

/-- Claim C4 witness: one full page of 100 zeros followed by a short page;
the fetch returns their concatenation and requests exactly offsets 0, 100. -/
theorem claim_C4_get_all_issues_pagination_witness :
    ([List.replicate 100 0, [1, 2]] : List (List Nat)).length + 1 ≤ 3 ∧
    get_all_issues (svcOfPages [List.replicate 100 0, [1, 2]]) 3 =
      ([0, 100], some (List.replicate 100 0 ++ [1, 2])) := by
  refine ⟨by decide, ?_⟩
  rw [claim_C4_get_all_issues_pagination [List.replicate 100 0, [1, 2]] 3
    (by decide)]
  rfl

/-! ## Claim C5 -/

/-- Claim C5: the label mutator is idempotent. An issue already holding
the label gets only the "already has label" notice and no update call;
after one real run the second run performs no mutating call; and when the
label is absent, the pushed value is the full existing list with the label
appended. -/
theorem claim_C5_add_label_idempotent :
    (∀ dry i label, i.labels.contains label = true →
      add_label_step dry i label =
        ([Event.msg (i.key ++ " already has label \x27" ++ label ++ "\x27")], i)) ∧
    (∀ i label,
      ((add_label_step false (add_label_step false i label).2 label).1.all
        (fun e => !isMutating e)) = true) ∧
    (∀ i label, i.labels.contains label = false →
      add_label_step false i label =
        ([Event.msg ("Updating " ++ i.key ++ " with label \x27" ++ label ++ "\x27"),
          Event.updateLabels i.key (i.labels ++ [label]),
          Event.msg ("Updated " ++ i.key ++ " with label \x27" ++ label ++ "\x27")],
         { i with labels := i.labels ++ [label] })) := by
  refine ⟨?_, ?_, ?_⟩
  · intro dry i label h
    have hm : label ∈ i.labels := by simpa using h
    simp [add_label_step, hm]
  · intro i label
    by_cases h : label ∈ i.labels
    · simp [add_label_step, h, isMutating]
    · have h2 : label ∈ i.labels ++ [label] := by simp
      simp [add_label_step, h, h2, isMutating]
  · intro i label h
    have hm : label ∉ i.labels := by simpa using h
    simp [add_label_step, hm]

/-- Claim C5 witness: the theorem applied to a concrete issue that already
has the label and to one that lacks it. -/
theorem claim_C5_add_label_idempotent_witness :
    (Issue.mk "K" ["L"] "Open" none "").labels.contains "L" = true ∧
    add_label_step false (Issue.mk "K" ["L"] "Open" none "") "L" =
      ([Event.msg "K already has label \x27L\x27"], Issue.mk "K" ["L"] "Open" none "") ∧
    add_label_step false (Issue.mk "K" [] "Open" none "") "L" =
      ([Event.msg "Updating K with label \x27L\x27",
        Event.updateLabels "K" ["L"],
        Event.msg "Updated K with label \x27L\x27"],
       Issue.mk "K" ["L"] "Open" none "") := by
  refine ⟨by decide, ?_, ?_⟩
  · rw [claim_C5_add_label_idempotent.1 false (Issue.mk "K" ["L"] "Open" none "")
      "L" (by decide)]
    rfl
  · rw [claim_C5_add_label_idempotent.2.2 (Issue.mk "K" [] "Open" none "") "L"
      (by decide)]
    rfl

/-! ## Claim C6 -/

/-- Claim C6: the status mutator never executes a transition on an issue
whose status already equals the target case-insensitively (it emits only
the notice, in particular no transition listing and no execution); when no
available transition matches the target case-insensitively it reports and
skips that issue only; and processing a list always continues with the
remaining issues. -/
theorem claim_C6_move_to_status :
    (∀ dry trans i target, pyLower i.status = pyLower target →
      move_issue_step dry trans i target =
        [Event.msg (i.key ++ " already in status \x27" ++ target ++ "\x27")]) ∧
    (∀ dry trans i target,
      (pyLower i.status == pyLower target) = false →
      (trans i.key).find? (fun t => pyLower t.name == pyLower target) = none →
      move_issue_step dry trans i target =
        [Event.getTransitions i.key,
         Event.msg ("No valid transition found for " ++ i.key ++ " → \x27" ++
           target ++ "\x27")]) ∧
    (∀ dry trans issues i target,
      move_issues_to_status dry trans (i :: issues) target =
        move_issue_step dry trans i target ++
          move_issues_to_status dry trans issues target) := by
  refine ⟨?_, ?_, fun _ _ _ _ _ => rfl⟩
  · intro dry trans i target h
    simp [move_issue_step, h]
  · intro dry trans i target h1 h2
    simp [move_issue_step, h1, h2]

/-- Claim C6 witness: a concrete issue already in the target status, and a
concrete issue with no matching transition. -/
theorem claim_C6_move_to_status_witness :
    pyLower (Issue.mk "K" [] "Done" none "").status = pyLower "done" ∧
    move_issue_step false (fun _ => [Transition.mk "31" "Done"])
        (Issue.mk "K" [] "Done" none "") "done" =
      [Event.msg "K already in status \x27done\x27"] ∧
    move_issue_step false (fun _ => [Transition.mk "31" "Done"])
        (Issue.mk "K" [] "Open" none "") "Blocked" =
      [Event.getTransitions "K",
       Event.msg "No valid transition found for K → \x27Blocked\x27"] := by
  refine ⟨by decide, ?_, ?_⟩
  · rw [claim_C6_move_to_status.1 false (fun _ => [Transition.mk "31" "Done"])
      (Issue.mk "K" [] "Done" none "") "done" (by decide)]
    rfl
  · rw [claim_C6_move_to_status.2.1 false (fun _ => [Transition.mk "31" "Done"])
      (Issue.mk "K" [] "Open" none "") "Blocked" (by decide) (by decide)]
    rfl

/-! ## Claims C7 and C9 -/

theorem char_ofNat_toNat_32 (n : Nat) (h : n + 32 < 55296) :
    (Char.ofNat (n + 32)).toNat = n + 32 := by
  rw [Char.ofNat, dif_pos (Or.inl h)]
  rfl

theorem char_toLower_idem (c : Char) : c.toLower.toLower = c.toLower := by
  rw [Char.toLower, Char.toLower]
  by_cases h : c.toNat ≥ 65 ∧ c.toNat ≤ 90
  · rw [if_pos h]
    have hv : (Char.ofNat (c.toNat + 32)).toNat = c.toNat + 32 :=
      char_ofNat_toNat_32 c.toNat (by omega)
    rw [if_neg (by rw [hv]; omega)]
  · rw [if_neg h, if_neg h]

theorem pyLower_idem (s : String) : pyLower (pyLower s) = pyLower s := by
  cases s with
  | mk data =>
    simp only [pyLower, List.map_map]
    congr 1
    apply List.map_congr_left
    intro c _
    simpa using char_toLower_idem c

/-- Claim C7 counterexample: the issue created 9999-12-30 with priority
"low" is in the table with a parsing creation day, yet nothing is printed
or pushed — `created_date + timedelta(days=90)` passes the calendar
ceiling and the run aborts, refuting "for every issue, the due-date
mutator computes ... and pushes it". -/
theorem claim_C7_due_dates_from_severity_counterexample :
    tIssueLow.priority = some "low" ∧
    daysFor (pyLower "low") = some 90 ∧
    parseYMD (pyTake tIssueLow.created 10) = some ⟨9999, 12, 30⟩ ∧
    addDaysChecked ⟨9999, 12, 30⟩ 90 = none ∧
    set_due_step false tIssueLow = none := by
  exact ⟨rfl, by decide, by decide, by decide, by decide⟩

/-- Claim C7, amended: for every issue whose lowercased priority is in the
table critical→7, high→15, medium→30, low→90, whose creation day parses
and whose creation day plus the offset does not pass the maximum
representable date 9999-12-31, the due-date mutator prints the creation
day plus the offset and pushes it in YYYY-MM-DD form; when the sum passes
the ceiling the run aborts with an overflow error and nothing is printed
or pushed; a priority outside the table (including informational) or an
absent priority is skipped with no update and no report. Concretely,
priority "Critical" with creation date 2024-01-01 yields due date
08-01-2024 (pushed as 2024-01-08). -/
theorem claim_C7_due_dates_from_severity :
    (daysFor "critical" = some 7 ∧ daysFor "high" = some 15 ∧
     daysFor "medium" = some 30 ∧ daysFor "low" = some 90 ∧
     daysFor "informational" = none) ∧
    set_due_step false tIssue =
      some [Event.msg "Setting due date for AB-1 to 08-01-2024",
            Event.updateDuedate "AB-1" "2024-01-08",
            Event.msg "Due date set for AB-1"] ∧
    (∀ i p days c due, i.priority = some p → daysFor (pyLower p) = some days →
      parseYMD (pyTake i.created 10) = some c → addDaysChecked c days = some due →
      set_due_step false i =
        some [Event.msg ("Setting due date for " ++ i.key ++ " to " ++
                fmtDMY due),
              Event.updateDuedate i.key (fmtYMD due),
              Event.msg ("Due date set for " ++ i.key)]) ∧
    (∀ dry i p days c, i.priority = some p → daysFor (pyLower p) = some days →
      parseYMD (pyTake i.created 10) = some c → addDaysChecked c days = none →
      set_due_step dry i = none) ∧
    (∀ dry i, i.priority = none → set_due_step dry i = some []) ∧
    (∀ dry i p, i.priority = some p → daysFor (pyLower p) = none →
      set_due_step dry i = some []) := by
  have hnotinf : ∀ p days, daysFor (pyLower p) = some days →
      (pyLower p == "informational") = false := by
    intro p days hdays
    rcases hb : pyLower p == "informational" with _ | _
    · rfl
    · rw [show pyLower p = "informational" from by exact eq_of_beq hb,
        show daysFor "informational" = none from by decide] at hdays
      exact Option.noConfusion hdays
  refine ⟨by decide, by rfl, ?_, ?_, ?_, ?_⟩
  · intro i p days c due hp hdays hc hdue
    simp [set_due_step, hp, hnotinf p days hdays, hdays, hc, hdue]
  · intro dry i p days c hp hdays hc hdue
    simp [set_due_step, hp, hnotinf p days hdays, hdays, hc, hdue]
  · intro dry i hp
    simp [set_due_step, hp]
  · intro dry i p hp hdays
    by_cases hni : (pyLower p == "informational") = true
    · simp [set_due_step, hp, hni]
    · simp only [Bool.not_eq_true] at hni
      simp [set_due_step, hp, hni, hdays]

/-- Claim C7 witness: the push clause applied at the concrete critical
issue, the abort clause at the ceiling-passing issue, and the skip clauses
at an absent and an informational priority. -/
theorem claim_C7_due_dates_from_severity_witness :
    tIssue.priority = some "Critical" ∧
    daysFor (pyLower "Critical") = some 7 ∧
    parseYMD (pyTake tIssue.created 10) = some ⟨2024, 1, 1⟩ ∧
    addDaysChecked ⟨2024, 1, 1⟩ 7 = some ⟨2024, 1, 8⟩ ∧
    set_due_step false tIssue =
      some [Event.msg ("Setting due date for " ++ tIssue.key ++ " to " ++
              fmtDMY ⟨2024, 1, 8⟩),
            Event.updateDuedate tIssue.key (fmtYMD ⟨2024, 1, 8⟩),
            Event.msg ("Due date set for " ++ tIssue.key)] ∧
    set_due_step true tIssueLow = none ∧
    set_due_step false (Issue.mk "K" [] "Open" none "") = some [] ∧
    set_due_step false (Issue.mk "K" [] "Open" (some "Informational") "") =
      some [] := by
  refine ⟨by decide, by decide, by decide, by decide, ?_, ?_, ?_, ?_⟩
  · exact claim_C7_due_dates_from_severity.2.2.1 tIssue "Critical" 7 ⟨2024, 1, 1⟩
      ⟨2024, 1, 8⟩ (by decide) (by decide) (by decide) (by decide)
  · exact claim_C7_due_dates_from_severity.2.2.2.1 true tIssueLow "low" 90
      ⟨9999, 12, 30⟩ (by decide) (by decide) (by decide) (by decide)
  · exact claim_C7_due_dates_from_severity.2.2.2.2.1 false
      (Issue.mk "K" [] "Open" none "") (by decide)
  · exact claim_C7_due_dates_from_severity.2.2.2.2.2 false
      (Issue.mk "K" [] "Open" (some "Informational") "") "Informational"
      (by decide) (by decide)

/-- Claim C9: the severity lookup is case-insensitive — the behaviour of
the due-date mutator on an issue depends only on the lowercased priority
name, any casing of the four table entries maps to its offset, and any
casing of "informational" is skipped. -/
theorem claim_C9_severity_lookup_case_insensitive :
    (∀ dry i p, i.priority = some p →
      set_due_step dry i =
        set_due_step dry { i with priority := some (pyLower p) }) ∧
    (daysFor (pyLower "Critical") = some 7 ∧ daysFor (pyLower "HIGH") = some 15 ∧
     daysFor (pyLower "Medium") = some 30 ∧ daysFor (pyLower "LOW") = some 90) ∧
    (∀ dry i p, i.priority = some p → pyLower p = "informational" →
      set_due_step dry i = some []) := by
  refine ⟨?_, by decide, ?_⟩
  · intro dry i p hp
    simp only [set_due_step, hp, pyLower_idem]
  · intro dry i p hp hlow
    simp [set_due_step, hp, hlow]

/-- Claim C9 witness: uppercase "CRITICAL" behaves as lowercase
"critical", and "Informational" is skipped. -/
theorem claim_C9_severity_lookup_case_insensitive_witness :
    (Issue.mk "K" [] "Open" (some "CRITICAL") "2024-01-01").priority =
      some "CRITICAL" ∧
    set_due_step false (Issue.mk "K" [] "Open" (some "CRITICAL") "2024-01-01") =
      set_due_step false (Issue.mk "K" [] "Open" (some "critical") "2024-01-01") ∧
    pyLower "Informational" = "informational" ∧
    set_due_step true (Issue.mk "K" [] "Open" (some "Informational") "") =
      some [] := by
  refine ⟨rfl, ?_, by decide, ?_⟩
  · have h := claim_C9_severity_lookup_case_insensitive.1 false
      (Issue.mk "K" [] "Open" (some "CRITICAL") "2024-01-01") "CRITICAL" rfl
    simpa using h
  · exact claim_C9_severity_lookup_case_insensitive.2.2 true
      (Issue.mk "K" [] "Open" (some "Informational") "") "Informational" rfl
      (by decide)

/-! ## Claim C8 -/

/-- Claim C8: a missing credentials file, an unreadable one, or one
lacking any of the three fields makes the process exit with status 1
before any network activity (no authentication event); the file is read
exactly once, and the session is authenticated only after a successful
load. -/
theorem claim_C8_credentials_fail_fast :
    (∀ file authOk, load_credentials file = .error 1 →
      startup file authOk = ([.readCredsFile], .error 1)) ∧
    (load_credentials .missing = .error 1 ∧
     load_credentials .unreadableJson = .error 1) ∧
    (∀ e t u, ((getVal e).isEmpty || (getVal t).isEmpty ||
        (getVal u).isEmpty) = true →
      load_credentials (.content e t u) = .error 1) ∧
    (∀ file authOk, (startup file authOk).1.count .readCredsFile = 1) ∧
    (∀ file authOk, StartEvent.netAuthenticate ∈ (startup file authOk).1 →
      ∃ creds, load_credentials file = .ok creds) := by
  refine ⟨?_, ⟨rfl, rfl⟩, ?_, ?_, ?_⟩
  · intro file authOk h
    simp [startup, h]
  · intro e t u h
    cases e <;> cases t <;> cases u <;> simp_all [load_credentials, getVal]
  · intro file authOk
    rcases hld : load_credentials file with code | creds
    · simp [startup, hld, List.count_cons, List.count_nil]
    · cases authOk <;>
        simp [startup, hld, List.count_cons, List.count_nil]
  · intro file authOk
    rcases hld : load_credentials file with code | creds
    · intro hmem
      rw [startup, hld] at hmem
      simp at hmem
    · intro _
      exact ⟨creds, rfl⟩

/-- Claim C8 witness: the theorem applied to a missing file, to a file
with an empty `api_token`, and the read-once/auth-after-load clauses at a
well-formed file. -/
theorem claim_C8_credentials_fail_fast_witness :
    load_credentials .missing = .error 1 ∧
    startup .missing true = ([.readCredsFile], .error 1) ∧
    ((getVal (some "a@b.c")).isEmpty || (getVal (some "")).isEmpty ||
      (getVal (some "https://x")).isEmpty) = true ∧
    load_credentials (.content (some "a@b.c") (some "") (some "https://x")) =
      .error 1 ∧
    (startup (.content (some "a@b.c") (some "tok") (some "https://x")) true).1.count
      .readCredsFile = 1 ∧
    (StartEvent.netAuthenticate ∈
        (startup (.content (some "a@b.c") (some "tok") (some "https://x")) true).1 →
      ∃ creds, load_credentials
        (.content (some "a@b.c") (some "tok") (some "https://x")) = .ok creds) := by
  refine ⟨rfl, ?_, by decide, ?_, ?_, ?_⟩
  · exact claim_C8_credentials_fail_fast.1 .missing true rfl
  · exact claim_C8_credentials_fail_fast.2.2.1 (some "a@b.c") (some "")
      (some "https://x") (by decide)
  · exact claim_C8_credentials_fail_fast.2.2.2.1
      (.content (some "a@b.c") (some "tok") (some "https://x")) true
  · exact claim_C8_credentials_fail_fast.2.2.2.2
      (.content (some "a@b.c") (some "tok") (some "https://x")) true

/-! ## Claims C1 and C10 -/

theorem data_append (a b : String) : (a ++ b).data = a.data ++ b.data := by
  cases a
  cases b
  rfl

theorem isPrefixOf_append_of_length_le {α : Type} [BEq α] :
    ∀ (l1 l2 l3 : List α), l1.length ≤ l2.length →
      l1.isPrefixOf (l2 ++ l3) = l1.isPrefixOf l2
  | [], _, _, _ => by simp [List.isPrefixOf]
  | _ :: _, [], _, h => by simp at h
  | a :: as, b :: bs, l3, h => by
    simp only [List.cons_append, List.isPrefixOf, List.append_eq]
    rw [isPrefixOf_append_of_length_le as bs l3 (by simpa using h)]

theorem notWould_one (pre n : String)
    (hp : "Would ".data.isPrefixOf pre.data = false)
    (hl : "Would ".data.length ≤ pre.data.length) :
    isWouldReport (.msg (pre ++ n)) = false := by
  simp only [isWouldReport, data_append]
  rw [isPrefixOf_append_of_length_le _ _ _ hl, hp]

theorem notWould_two (pre n post : String)
    (hp : "Would ".data.isPrefixOf pre.data = false)
    (hl : "Would ".data.length ≤ pre.data.length) :
    isWouldReport (.msg (pre ++ n ++ post)) = false := by
  simp only [isWouldReport, data_append, List.append_assoc]
  rw [isPrefixOf_append_of_length_le _ _ _ hl, hp]

theorem board_loop_events (svc : Nat → List Board) (name : String) :
    ∀ (fuel s : Nat),
      ((board_loop svc name fuel s).1.all
        (fun e => !isMutating e && !isSearch e && !isWouldReport e)) = true
  | 0, _ => rfl
  | fuel + 1, s => by
    simp only [board_loop]
    by_cases h1 : (svc s).isEmpty = true
    · simp only [h1, if_true, List.all_cons, List.all_nil]
      rfl
    · rcases h2 : (svc s).find? (fun b => b.name == name) with _ | b
      · have ih := board_loop_events svc name fuel (s + (svc s).length)
        simp [isMutating, isSearch, isWouldReport] at ih ⊢
        rw [h2]
        have h1x : svc s ≠ [] := by simpa using h1
        rw [if_neg h1x]
        refine fun x hx => ?_
        rcases List.mem_cons.mp hx with h | h
        · subst h
          simp
        · exact ih x h
      · rw [h2]
        split <;> rfl

theorem board_loop_head (svc : Nat → List Board) (name : String)
    (fuel s : Nat) (h : 1 ≤ fuel) :
    ∃ tail, (board_loop svc name fuel s).1 = Event.getBoards s :: tail := by
  obtain ⟨f, rfl⟩ : ∃ f, fuel = f + 1 := ⟨fuel - 1, by omega⟩
  simp only [board_loop]
  by_cases h1 : (svc s).isEmpty = true
  · exact ⟨[], by simp [h1]⟩
  · rcases h2 : (svc s).find? (fun b => b.name == name) with _ | b
    · exact ⟨(board_loop svc name f (s + (svc s).length)).1, by simp [h1, h2]⟩
    · exact ⟨[], by simp [h1, h2]⟩

/-- Claim C1, amended: for every invocation with dry-run set, the whole
trace contains no mutating remote call, no issue-search call, and no
would-be-mutation report (no `"Would …"` line) — the script only resolves
the board (or project) when one is named, reports existence, and exits
right after that check. -/
theorem claim_C1_dry_run_only_resolves (a : Args) (svc : Service) (fuel : Nat)
    (h : a.dry_run = true) :
    ((main a svc fuel).1.all
      (fun e => !isMutating e && !isSearch e && !isWouldReport e)) = true ∧
    (truthy a.board_name = true → 1 ≤ fuel →
      Event.getBoards 0 ∈ (main a svc fuel).1) ∧
    (truthy a.board_name = false → truthy a.project = true →
      Event.getProjects ∈ (main a svc fuel).1) := by
  have w1 := notWould_one "Looking for board: " (getVal a.board_name)
    (by decide) (by decide)
  have w2 := notWould_two "Board \x27" (getVal a.board_name) "\x27 exists."
    (by decide) (by decide)
  have w3 := notWould_two "Board \x27" (getVal a.board_name) "\x27 not found."
    (by decide) (by decide)
  have w4 := notWould_one "Looking for project: " (getVal a.project)
    (by decide) (by decide)
  have w5 := notWould_two "Project \x27" (getVal a.project) "\x27 exists."
    (by decide) (by decide)
  have w6 := notWould_two "Project \x27" (getVal a.project) "\x27 not found."
    (by decide) (by decide)
  have wg : isWouldReport Event.getProjects = false := rfl
  refine ⟨?_, ?_, ?_⟩
  · simp only [main, h, if_true]
    by_cases hb : truthy a.board_name = true
    · simp only [hb, if_true]
      have hev := board_loop_events svc.boardsPage (getVal a.board_name) fuel 0
      split <;> simp_all [isMutating, isSearch, List.all_append]
    · simp only [hb, Bool.false_eq_true, if_false]
      by_cases hp : truthy a.project = true
      · simp only [hp, if_true]
        split <;> simp_all [isMutating, isSearch, List.all_append]
      · simp [hp]
  · intro hb hf
    obtain ⟨tail, htail⟩ :=
      board_loop_head svc.boardsPage (getVal a.board_name) fuel 0 hf
    simp only [main, h, if_true, hb]
    split <;> simp_all
  · intro hb hp
    simp only [main, h, if_true, hb, Bool.false_eq_true, if_false, hp, if_true]
    split <;> simp

/-- Claim C1 witness: a dry run that resolves a board performs no mutating
call, no search call and no would-be-mutation report, and the board
resolution is present. -/
theorem claim_C1_dry_run_only_resolves_witness :
    tArgsDry.dry_run = true ∧
    ((main tArgsDry tSvc 5).1.all
      (fun e => !isMutating e && !isSearch e && !isWouldReport e)) = true ∧
    Event.getBoards 0 ∈ (main tArgsDry tSvc 5).1 := by
  refine ⟨rfl, ?_, ?_⟩
  · exact (claim_C1_dry_run_only_resolves _ tSvc 5 rfl).1
  · exact (claim_C1_dry_run_only_resolves _ tSvc 5 rfl).2.1 (by decide) (by decide)

/-- Claim C1 counterexample: a dry-run invocation with a resolvable board,
a requested label mutator and a service holding a matching issue, whose
whole trace performs no issue search and reports no would-be mutation —
refuting that dry-run "still performs the issue fetch" and "reports every
would-be mutation". -/
theorem claim_C1_dry_run_counterexample :
    tArgsDry.dry_run = true ∧
    truthy tArgsDry.add_label = true ∧
    (tSvc.searchPage "project = ABC ORDER BY Rank ASC" 0).length = 1 ∧
    main tArgsDry tSvc 5 =
      ([Event.msg "Looking for board: B", Event.getBoards 0,
        Event.msg "Board \x27B\x27 exists."], some 0) ∧
    ((main tArgsDry tSvc 5).1.all
      (fun e => !isSearch e &&
        !(e == Event.msg "Would update AB-1 with label \x27L\x27"))) = true := by
  refine ⟨rfl, rfl, rfl, by decide, by decide⟩

/-- Claim C10: a dry run with neither board nor project exits 0 with no
remote call and no output at all; the "Either --board-name or --project
must be provided" failure (exit 1) happens exactly in non-dry-run mode. -/
theorem claim_C10_target_required_only_when_real (a : Args) (svc : Service)
    (fuel : Nat) :
    (a.dry_run = true → truthy a.board_name = false → truthy a.project = false →
      main a svc fuel = ([], some 0)) ∧
    (a.dry_run = false → truthy a.board_name = false → truthy a.project = false →
      main a svc fuel =
        ([Event.msg "Either --board-name or --project must be provided."],
         some 1)) := by
  constructor
  · intro h hb hp
    simp [main, h, hb, hp]
  · intro h hb hp
    simp [main, h, hb, hp]

/-- Claim C10 witness: both clauses at concrete argument vectors. -/
theorem claim_C10_target_required_only_when_real_witness :
    ({ argsNone with dry_run := true } : Args).dry_run = true ∧
    main { argsNone with dry_run := true } tSvc 5 = ([], some 0) ∧
    argsNone.dry_run = false ∧
    main argsNone tSvc 5 =
      ([Event.msg "Either --board-name or --project must be provided."],
       some 1) := by
  refine ⟨rfl, ?_, rfl, ?_⟩
  · exact (claim_C10_target_required_only_when_real _ tSvc 5).1 rfl rfl rfl
  · exact (claim_C10_target_required_only_when_real _ tSvc 5).2 rfl rfl rfl

end JiraHelper
